import Mathlib

/-!
Shallow embedding of the otaku-wireframe client (src/services/api.ts,
src/contexts/AuthContext.tsx, src/components/PrivateRoute.tsx,
src/pages/TopicDetail.tsx) and proofs about its token handling,
interceptors, session flags, route guards and reply submission.
-/

namespace OtakuForum

/-- Browser `localStorage` restricted to the two keys the client uses:
`access_token` and `refresh_token`.  A field is `none` when the key is
absent (`getItem` returns `null`); `some s` when the key holds string `s`. -/
structure Storage where
  access_token : Option String
  refresh_token : Option String
deriving Repr, DecidableEq

/-- JS truthiness of a `localStorage.getItem` result (`string | null`):
`null` and the empty string are falsy, every other string is truthy. -/
def truthy : Option String → Bool
  | none => false
  | some s => s ≠ ""

/-- The per-request axios config as the interceptors see it:
the `_retry` loop-prevention flag (absent/`undefined` coerces to `false`)
and the `Authorization` header, `none` when the header is unset. -/
structure RequestConfig where
  _retry : Bool
  authHeader : Option String
deriving Repr, DecidableEq

/-- Request interceptor (api.ts lines 31-37):
reads `access_token` from storage and, when truthy, sets
`config.headers.Authorization = Bearer <token>`; otherwise leaves the
config untouched. -/
def requestInterceptor (storage : Storage) (config : RequestConfig) : RequestConfig :=
  match storage.access_token with
  | some t => if t ≠ "" then { config with authHeader := some ("Bearer " ++ t) } else config
  | none => config

/-- User-visible toast notifications raised by the code under study,
identified by their title. -/
inductive Toast
  | accessDenied
  | serverError
  | loginRequired
  | topicLocked
  | replySuccess
  | replyError
  | loggedOut
deriving Repr, DecidableEq

/-- The error object handed to the response interceptor:
`error.response?.status` (absent on transport failure) and
`error.config` (absent in degenerate cases, the code guards for it). -/
structure AxiosErrorInfo where
  status : Option Nat
  config : Option RequestConfig
deriving Repr, DecidableEq

/-- The value the response-error interceptor resolves to:
`replayRequest c` for `return api(originalRequest)` (the replay's promise is
handed back to the original caller), `rejectError` for
`return Promise.reject(error)` with the original error, and
`rejectRefreshError` for `return Promise.reject(refreshError)`. -/
inductive InterceptorResult
  | replayRequest (config : RequestConfig)
  | rejectError
  | rejectRefreshError
deriving Repr, DecidableEq

/-- Everything observable about one run of the response-error interceptor:
the storage after it, the toasts it raised, the value assigned to
`window.location.href` (if any), whether `POST /auth/refresh` was sent,
the state of `error.config` after the handler (its `_retry` mutation is
visible to the caller), and the returned value. -/
structure InterceptorOutput where
  storage : Storage
  toasts : List Toast
  redirect : Option String
  refreshCalled : Bool
  finalConfig : Option RequestConfig
  result : InterceptorResult
deriving Repr, DecidableEq

/-- The trailing error-type handling of the interceptor (api.ts lines 69-82):
`status === 403` raises the Access Denied toast, else `status >= 500`
raises the Server Error toast (a missing status raises nothing, since in
JS `undefined >= 500` is false). -/
def errorToasts : Option Nat → List Toast
  | some s => if s = 403 then [Toast.accessDenied]
              else if 500 ≤ s then [Toast.serverError]
              else []
  | none => []

/-- The fall-through tail of the interceptor: raise the 403/5xx toasts and
`return Promise.reject(error)`, leaving storage alone. -/
def rejectWithToasts (storage : Storage) (status : Option Nat)
    (cfg : Option RequestConfig) : InterceptorOutput :=
  { storage := storage, toasts := errorToasts status, redirect := none,
    refreshCalled := false, finalConfig := cfg, result := .rejectError }

/-- Response-error interceptor (api.ts lines 40-86).  `refreshCall` abstracts
`axios.post(BASE_URL/auth/refresh)` with the given refresh token in the
Authorization header: `.ok tok` is a 2xx response whose body carries
`access_token = tok`, `.error ()` is a rejected promise.  The JS control
flow: on a 401 whose config exists and is not yet retried, set `_retry`,
and if a truthy refresh token is stored, refresh; on refresh success
persist the new access token, set the Authorization header on the original
config and return `api(originalRequest)`; on refresh failure (the catch
block) remove both tokens, redirect to `/login` and reject with the
refresh error.  Every other path falls through to the 403/5xx toast
handling and rejects with the original error. -/
def responseErrorInterceptor (storage : Storage)
    (refreshCall : String → Except Unit String)
    (error : AxiosErrorInfo) : InterceptorOutput :=
  match error.config with
  | some orig =>
    if error.status = some 401 ∧ orig._retry = false then
      let orig' := { orig with _retry := true }
      match storage.refresh_token with
      | some rt =>
        if rt ≠ "" then
          match refreshCall rt with
          | .ok newTok =>
            let storage' := { storage with access_token := some newTok }
            let replayed := { orig' with authHeader := some ("Bearer " ++ newTok) }
            { storage := storage', toasts := [], redirect := none,
              refreshCalled := true, finalConfig := some replayed,
              result := .replayRequest replayed }
          | .error _ =>
            { storage := { access_token := none, refresh_token := none },
              toasts := [], redirect := some ("/login"),
              refreshCalled := true, finalConfig := some orig',
              result := .rejectRefreshError }
        else rejectWithToasts storage error.status (some orig')
      | none => rejectWithToasts storage error.status (some orig')
    else rejectWithToasts storage error.status (some orig)
  | none => rejectWithToasts storage error.status none

/-- The closed role set of `User.role` (src/types/index.ts line 10). -/
inductive Role
  | user
  | moderator
  | admin
deriving Repr, DecidableEq

/-- The fields of the `User` record that the session logic reads. -/
structure UserM where
  id : Nat
  username : String
  role : Role
deriving Repr, DecidableEq

/-- AuthContext: `isAuthenticated = !!user`. -/
def isAuthenticated (user : Option UserM) : Bool :=
  user.isSome

/-- AuthContext: `isModerator = user?.role === 'moderator' || user?.role === 'admin'`
(optional chaining on a null user yields `undefined`, which compares unequal
to both strings). -/
def isModerator (user : Option UserM) : Bool :=
  match user with
  | some u => u.role = Role.moderator || u.role = Role.admin
  | none => false

/-- AuthContext: `isAdmin = user?.role === 'admin'`. -/
def isAdmin (user : Option UserM) : Bool :=
  match user with
  | some u => u.role = Role.admin
  | none => false

/-- The session state AuthContext owns: the token storage and the current
user (`null` when signed out). -/
structure AuthState where
  storage : Storage
  user : Option UserM
deriving Repr, DecidableEq

/-- AuthContext `logout()`: removes `access_token` and `refresh_token` from
storage, sets the user to `null` and raises the logged-out toast.  The
third component lists the backend endpoints hit during the call: the
function body contains no API call, so it is always empty; the function is
synchronous (not `async`, nothing awaited), which the embedding reflects by
being a plain total function on the state. -/
def logout (s : AuthState) : AuthState × List Toast × List String :=
  let storage1 := { s.storage with access_token := none }
  let storage2 := { storage1 with refresh_token := none }
  (⟨storage2, none⟩, [Toast.loggedOut], [])

/-- What `PrivateRoute` renders. `navigateLogin loc` is
`<Navigate to="/login" state=(from loc) replace />`, carrying the requested
location for post-login return; `navigateHome` is `<Navigate to="/" replace />`. -/
inductive RouteOutcome
  | loadingView
  | navigateLogin (from_ : String)
  | navigateHome
  | renderChildren
deriving Repr, DecidableEq

/-- PrivateRoute (src/components/PrivateRoute.tsx): in order, render the
loading view while `loading`; redirect unauthenticated users to `/login`
preserving the location; redirect home when `requireAdmin` and not admin;
redirect home when `requireModerator` and not moderator; otherwise render
the children. -/
def privateRoute (loading isAuth isMod isAdm requireModerator requireAdmin : Bool)
    (location : String) : RouteOutcome :=
  if loading then .loadingView
  else if !isAuth then .navigateLogin location
  else if requireAdmin && !isAdm then .navigateHome
  else if requireModerator && !isMod then .navigateHome
  else .renderChildren

/-- The fields of a forum `Topic` that the reply handler reads. -/
structure TopicM where
  id : Nat
  is_locked : Bool
  replies_count : Nat
deriving Repr, DecidableEq

/-- Disposition of one invocation of `handleSubmitReply`:
`blockedLogin` raises the Login Required toast and returns;
`ignoredBlank` returns silently on whitespace-only content;
`blockedLocked` raises the Topic Locked toast and returns;
`submitted id content` reaches `forumApi.createReply(id, content)`. -/
inductive ReplyAction
  | blockedLogin
  | ignoredBlank
  | blockedLocked
  | submitted (topicId : Nat) (content : String)
deriving Repr, DecidableEq

/-- JS `String.prototype.trim()`: drop whitespace from both ends.
Implemented structurally over the character list so that concrete inputs
evaluate in the kernel. -/
def jsTrim (s : String) : String :=
  String.mk (((s.data.dropWhile Char.isWhitespace).reverse.dropWhile
    Char.isWhitespace).reverse)

/-- TopicDetail `handleSubmitReply` (src/pages/TopicDetail.tsx):
guard order is authentication/topic presence, then blank content
(`!replyContent.trim()`), then `topic.is_locked && !isModerator`; only past
all three guards is `forumApi.createReply(topic.id, replyContent)` called. -/
def handleSubmitReply (isAuth isMod : Bool) (topic : Option TopicM)
    (replyContent : String) : ReplyAction :=
  match topic with
  | none => .blockedLogin
  | some t =>
    if !isAuth then .blockedLogin
    else if jsTrim replyContent = "" then .ignoredBlank
    else if t.is_locked && !isMod then .blockedLocked
    else .submitted t.id replyContent

/-- The `forumApi.createReply` calls an action performs. -/
def replyApiCalls : ReplyAction → List (Nat × String)
  | .submitted id content => [(id, content)]
  | _ => []

/-- Whether the action raises a destructive (error) toast before returning. -/
def replyErrorToast : ReplyAction → Bool
  | .blockedLogin => true
  | .blockedLocked => true
  | _ => false

/-- C3 (amended): for a request that does not already carry an
Authorization header, the request interceptor attaches
`Bearer <token>` iff a truthy (non-null, non-empty) access token is stored;
with no truthy token stored, no Authorization header is sent. -/
theorem C3_auth_header_iff_truthy_token (storage : Storage) (config : RequestConfig)
    (h : config.authHeader = none) :
    (((requestInterceptor storage config).authHeader ≠ none)
        ↔ truthy storage.access_token = true) ∧
    (∀ t, storage.access_token = some t → t ≠ "" →
      (requestInterceptor storage config).authHeader = some ("Bearer " ++ t)) ∧
    (truthy storage.access_token = false →
      (requestInterceptor storage config).authHeader = none) := by
  obtain ⟨acc, ref⟩ := storage
  cases acc with
  | none => simp [requestInterceptor, truthy, h]
  | some t =>
    by_cases ht : t = "" <;> simp [requestInterceptor, truthy, h, ht]

/-- C3 witness: with a stored token `tok` and a bare config, the header
`Bearer tok` is attached. -/
theorem C3_auth_header_iff_truthy_token_witness :
    (requestInterceptor (Storage.mk (some ("tok")) none)
      (RequestConfig.mk false none)).authHeader = some ("Bearer " ++ "tok") :=
  (C3_auth_header_iff_truthy_token (Storage.mk (some ("tok")) none)
    (RequestConfig.mk false none) rfl).2.1 ("tok") rfl (by decide)

/-- C3 counterexample: storing the empty string under `access_token` puts an
access-token entry in storage (`getItem` returns a string, not null), yet
the interceptor attaches no Authorization header, because `if (token)` is
false for the empty string; so the claimed iff with mere presence fails. -/
theorem C3_counterexample_empty_token :
    (Storage.mk (some ("")) none).access_token.isSome = true ∧
    (requestInterceptor (Storage.mk (some ("")) none)
      (RequestConfig.mk false none)).authHeader = none := by
  exact ⟨rfl, rfl⟩

/-- C5: `isModerator` holds exactly for the moderator and admin roles and is
false for the user role, `isAdmin` holds exactly for the admin role, both
are false with no user set, `isAdmin` implies `isModerator`, and
`isModerator` implies `isAuthenticated`. -/
theorem C5_role_flags (user : Option UserM) :
    (isModerator user = true
        ↔ ∃ u, user = some u ∧ (u.role = Role.moderator ∨ u.role = Role.admin)) ∧
    (isAdmin user = true ↔ ∃ u, user = some u ∧ u.role = Role.admin) ∧
    (∀ u, user = some u → u.role = Role.user → isModerator user = false) ∧
    (isModerator (none : Option UserM) = false ∧ isAdmin (none : Option UserM) = false) ∧
    (isAdmin user = true → isModerator user = true) ∧
    (isModerator user = true → isAuthenticated user = true) := by
  cases user with
  | none => simp [isModerator, isAdmin, isAuthenticated]
  | some u =>
    obtain ⟨uid, uname, urole⟩ := u
    cases urole <;> simp [isModerator, isAdmin, isAuthenticated]

/-- C5 witness: an admin user is a moderator. -/
theorem C5_role_flags_witness :
    isModerator (some (UserM.mk 1 ("alice") Role.admin)) = true :=
  (C5_role_flags (some (UserM.mk 1 ("alice") Role.admin))).2.2.2.2.1 rfl

/-- C6: on a locked topic with non-blank content, an authenticated
non-moderator's submission is blocked client-side — a destructive toast is
raised and no `createReply` call is made — while an authenticated
moderator's submission proceeds to the server as
`createReply(topic.id, content)` (it is the server, not silent client-side
success, that settles the moderator case). -/
theorem C6_locked_topic_reply (t : TopicM) (content : String)
    (hlock : t.is_locked = true) (hc : jsTrim content ≠ "") :
    handleSubmitReply true false (some t) content = ReplyAction.blockedLocked ∧
    replyApiCalls (handleSubmitReply true false (some t) content) = [] ∧
    replyErrorToast (handleSubmitReply true false (some t) content) = true ∧
    handleSubmitReply true true (some t) content = ReplyAction.submitted t.id content ∧
    replyApiCalls (handleSubmitReply true true (some t) content)
      = [(t.id, content)] := by
  simp [handleSubmitReply, hlock, hc, replyApiCalls, replyErrorToast]

/-- C6 witness: concrete locked topic with content "hi". -/
theorem C6_locked_topic_reply_witness :
    handleSubmitReply true false (some (TopicM.mk 7 true 0)) ("hi")
      = ReplyAction.blockedLocked :=
  (C6_locked_topic_reply (TopicM.mk 7 true 0) ("hi") rfl (by decide)).1

/-- C7: with loading over, an unauthenticated visitor is sent to the
sign-in route carrying the requested location; an authenticated visitor
failing an active requireAdmin or requireModerator check is sent home; and
when authenticated with every active check satisfied the guarded children
render. -/
theorem C7_route_guard (isAuth isMod isAdm reqMod reqAdm : Bool) (location : String) :
    (isAuth = false →
      privateRoute false isAuth isMod isAdm reqMod reqAdm location
        = RouteOutcome.navigateLogin location) ∧
    (isAuth = true → ((reqAdm = true ∧ isAdm = false) ∨ (reqMod = true ∧ isMod = false)) →
      privateRoute false isAuth isMod isAdm reqMod reqAdm location
        = RouteOutcome.navigateHome) ∧
    (isAuth = true → (reqAdm = true → isAdm = true) → (reqMod = true → isMod = true) →
      privateRoute false isAuth isMod isAdm reqMod reqAdm location
        = RouteOutcome.renderChildren) := by
  cases isAuth <;> cases isMod <;> cases isAdm <;> cases reqMod <;> cases reqAdm <;>
    simp [privateRoute]

/-- C7 witness: an unauthenticated visitor requesting `/create-article` is
redirected to sign-in with that location preserved. -/
theorem C7_route_guard_witness :
    privateRoute false false false false false false ("/create-article")
      = RouteOutcome.navigateLogin ("/create-article") :=
  (C7_route_guard false false false false false ("/create-article")).1 rfl

/-- C8: `logout` removes both tokens from storage, sets the user to null,
makes no API call (synchronously, as a plain state update), and afterwards
`isAuthenticated`, `isModerator` and `isAdmin` are all false. -/
theorem C8_logout_clears_session (s : AuthState) :
    (logout s).1.storage.access_token = none ∧
    (logout s).1.storage.refresh_token = none ∧
    (logout s).1.user = none ∧
    (logout s).2.2 = [] ∧
    isAuthenticated (logout s).1.user = false ∧
    isModerator (logout s).1.user = false ∧
    isAdmin (logout s).1.user = false := by
  simp [logout, isAuthenticated, isModerator, isAdmin]

/-- C1: on a 401 of a not-yet-retried request, with a truthy refresh token
stored and the refresh call returning a new access token, the interceptor
persists the new token to storage, raises no toast, performs no redirect,
and its returned value is the replay of the original request — replayed
exactly once, since the replayed config carries `_retry = true` — whose
Authorization header is `Bearer <newTok>`; the replayed config keeps that
header through the request interceptor, and because the replay's promise is
the interceptor's return value, the replay's result flows to the original
caller with no user intervention. -/
theorem C1_refresh_success_replay
    (storage : Storage) (refreshCall : String → Except Unit String)
    (c : RequestConfig) (rt newTok : String)
    (hretry : c._retry = false)
    (hrt : storage.refresh_token = some rt) (hne : rt ≠ "")
    (hok : refreshCall rt = Except.ok newTok) :
    (responseErrorInterceptor storage refreshCall ⟨some 401, some c⟩).storage.access_token
      = some newTok ∧
    (responseErrorInterceptor storage refreshCall ⟨some 401, some c⟩).result
      = InterceptorResult.replayRequest
          { c with _retry := true, authHeader := some ("Bearer " ++ newTok) } ∧
    (responseErrorInterceptor storage refreshCall ⟨some 401, some c⟩).toasts = [] ∧
    (responseErrorInterceptor storage refreshCall ⟨some 401, some c⟩).redirect = none ∧
    (requestInterceptor
        (responseErrorInterceptor storage refreshCall ⟨some 401, some c⟩).storage
        { c with _retry := true, authHeader := some ("Bearer " ++ newTok) }).authHeader
      = some ("Bearer " ++ newTok) := by
  by_cases hn : newTok = "" <;>
    simp [responseErrorInterceptor, requestInterceptor, hretry, hrt, hne, hok, hn]

/-- C1 witness: a concrete 401 with refresh token "rt" and a refresh call
answering "new". -/
theorem C1_refresh_success_replay_witness :
    (responseErrorInterceptor (Storage.mk (some ("old")) (some ("rt")))
        (fun _ => Except.ok ("new"))
        ⟨some 401, some (RequestConfig.mk false none)⟩).storage.access_token
      = some ("new") :=
  (C1_refresh_success_replay (Storage.mk (some ("old")) (some ("rt")))
    (fun _ => Except.ok ("new")) (RequestConfig.mk false none) ("rt") ("new")
    rfl rfl (by decide) rfl).1

/-- C2: (i) any replay the interceptor emits carries `_retry = true`, so no
request is retried more than once; (ii) a 401 whose config is already
marked retried is terminal — no refresh call, no replay, storage untouched,
no redirect, the error simply rejected to the caller; (iii) when the
refresh call fails, both tokens are removed from storage and the session is
redirected to `/login` in that single run (one `href` assignment), the
refresh error is rejected, and no replay is produced — never a loop. -/
theorem C2_retry_at_most_once
    (storage : Storage) (refreshCall : String → Except Unit String)
    (e : AxiosErrorInfo) (c c' : RequestConfig) (rt : String) :
    ((responseErrorInterceptor storage refreshCall e).result
        = InterceptorResult.replayRequest c' → c'._retry = true) ∧
    (e.status = some 401 → e.config = some c → c._retry = true →
      responseErrorInterceptor storage refreshCall e
        = { storage := storage, toasts := [], redirect := none,
            refreshCalled := false, finalConfig := some c,
            result := InterceptorResult.rejectError }) ∧
    (e.status = some 401 → e.config = some c → c._retry = false →
      storage.refresh_token = some rt → rt ≠ "" →
      (∃ u, refreshCall rt = Except.error u) →
      (responseErrorInterceptor storage refreshCall e).storage = ⟨none, none⟩ ∧
      (responseErrorInterceptor storage refreshCall e).redirect = some ("/login") ∧
      (responseErrorInterceptor storage refreshCall e).result
        = InterceptorResult.rejectRefreshError) := by
  obtain ⟨st, cfg⟩ := e
  refine ⟨?_, ?_, ?_⟩
  · intro hres
    cases cfg with
    | none => simp [responseErrorInterceptor, rejectWithToasts] at hres
    | some orig =>
      by_cases hcnd : st = some 401 ∧ orig._retry = false
      · rcases hrt : storage.refresh_token with _ | rt'
        · simp [responseErrorInterceptor, hcnd, hrt, rejectWithToasts] at hres
        · by_cases hne : rt' = ""
          · simp [responseErrorInterceptor, hcnd, hrt, hne, rejectWithToasts] at hres
          · rcases hcall : refreshCall rt' with u | tok
            · simp [responseErrorInterceptor, hcnd, hrt, hne, hcall,
                rejectWithToasts] at hres
            · simp [responseErrorInterceptor, hcnd, hrt, hne, hcall,
                rejectWithToasts] at hres
              simp [← hres]
      · simp [responseErrorInterceptor, hcnd, rejectWithToasts] at hres
  · intro hst hcfg hr
    subst hst
    subst hcfg
    simp [responseErrorInterceptor, hr, rejectWithToasts, errorToasts]
  · intro hst hcfg hr hrt hne hfail
    subst hst
    subst hcfg
    obtain ⟨u, hu⟩ := hfail
    simp [responseErrorInterceptor, hr, hrt, hne, hu]

/-- C2 witness: a failing refresh call on a concrete fresh 401 clears both
tokens and redirects to `/login`. -/
theorem C2_retry_at_most_once_witness :
    (responseErrorInterceptor (Storage.mk (some ("a")) (some ("r")))
        (fun _ => Except.error ())
        ⟨some 401, some (RequestConfig.mk false none)⟩).redirect
      = some ("/login") :=
  ((C2_retry_at_most_once (Storage.mk (some ("a")) (some ("r")))
      (fun _ => Except.error ()) ⟨some 401, some (RequestConfig.mk false none)⟩
      (RequestConfig.mk false none) (RequestConfig.mk false none) ("r")).2.2
    rfl rfl rfl rfl (by decide) ⟨(), rfl⟩).2.1

/-- The error is consumed by the 401 refresh path: status 401 on a present,
not-yet-retried config with a truthy stored refresh token (the branch that
calls the refresh endpoint instead of falling through). -/
def consumedBy401Refresh (storage : Storage) (e : AxiosErrorInfo) : Prop :=
  e.status = some 401 ∧
    ∃ c, e.config = some c ∧ c._retry = false ∧ truthy storage.refresh_token = true

/-- C4 (amended): a 403 raises exactly the Access Denied toast, and any
status of at least 500 — not only 500-599 — raises exactly the Server Error
toast; both are side-effecting only (no refresh call, no replay, storage
and location untouched) and the error is still rejected to the caller.
Every other status (below 500, not 403, not consumed by the 401 refresh
path) is rejected to the caller with no toast, no storage change and no
redirect. -/
theorem C4_status_toasts
    (storage : Storage) (refreshCall : String → Except Unit String)
    (e : AxiosErrorInfo) :
    (e.status = some 403 →
      (responseErrorInterceptor storage refreshCall e).toasts = [Toast.accessDenied] ∧
      (responseErrorInterceptor storage refreshCall e).result = InterceptorResult.rejectError ∧
      (responseErrorInterceptor storage refreshCall e).refreshCalled = false ∧
      (responseErrorInterceptor storage refreshCall e).storage = storage ∧
      (responseErrorInterceptor storage refreshCall e).redirect = none) ∧
    (∀ s, e.status = some s → 500 ≤ s →
      (responseErrorInterceptor storage refreshCall e).toasts = [Toast.serverError] ∧
      (responseErrorInterceptor storage refreshCall e).result = InterceptorResult.rejectError ∧
      (responseErrorInterceptor storage refreshCall e).refreshCalled = false ∧
      (responseErrorInterceptor storage refreshCall e).storage = storage ∧
      (responseErrorInterceptor storage refreshCall e).redirect = none) ∧
    (∀ s, e.status = some s → s ≠ 403 → s < 500 →
      ¬ consumedBy401Refresh storage e →
      (responseErrorInterceptor storage refreshCall e).toasts = [] ∧
      (responseErrorInterceptor storage refreshCall e).result = InterceptorResult.rejectError ∧
      (responseErrorInterceptor storage refreshCall e).refreshCalled = false ∧
      (responseErrorInterceptor storage refreshCall e).storage = storage ∧
      (responseErrorInterceptor storage refreshCall e).redirect = none) := by
  obtain ⟨st, cfg⟩ := e
  refine ⟨?_, ?_, ?_⟩
  · intro hst
    subst hst
    cases cfg <;>
      simp [responseErrorInterceptor, rejectWithToasts, errorToasts]
  · intro s hst hs
    subst hst
    have h401 : (some s : Option Nat) ≠ some 401 := by
      intro h
      rw [Option.some.injEq] at h
      omega
    have h403 : s ≠ 403 := by omega
    cases cfg with
    | none => simp [responseErrorInterceptor, rejectWithToasts, errorToasts, h403, hs]
    | some orig =>
      simp [responseErrorInterceptor, rejectWithToasts, errorToasts, h401, h403, hs]
  · intro s hst h403 hlt hnc
    subst hst
    cases cfg with
    | none =>
      have h500 : ¬ 500 ≤ s := by omega
      simp [responseErrorInterceptor, rejectWithToasts, errorToasts, h403, h500]
    | some orig =>
      have h500 : ¬ 500 ≤ s := by omega
      by_cases h401 : s = 401
      · subst h401
        by_cases hr : orig._retry = false
        · rcases hrt : storage.refresh_token with _ | rt
          · simp [responseErrorInterceptor, rejectWithToasts, errorToasts, hr, hrt]
          · by_cases hne : rt = ""
            · subst hne
              simp [responseErrorInterceptor, rejectWithToasts, errorToasts, hr, hrt]
            · exact absurd ⟨rfl, orig, rfl, hr, by simp [truthy, hrt, hne]⟩ hnc
        · have hr' : orig._retry = true := by
            cases h : orig._retry
            · exact absurd h hr
            · rfl
          simp [responseErrorInterceptor, rejectWithToasts, errorToasts, hr']
      · have hcnd : ¬ ((some s : Option Nat) = some 401 ∧ orig._retry = false) := by
          intro h
          exact h401 (Option.some.injEq .. ▸ h.1)
        simp [responseErrorInterceptor, rejectWithToasts, errorToasts, h401, h403, h500]

/-- C4 witness: a concrete 403 raises exactly the Access Denied toast. -/
theorem C4_status_toasts_witness :
    (responseErrorInterceptor (Storage.mk (some ("a")) (some ("r")))
        (fun _ => Except.ok ("t"))
        ⟨some 403, some (RequestConfig.mk false none)⟩).toasts
      = [Toast.accessDenied] :=
  ((C4_status_toasts (Storage.mk (some ("a")) (some ("r")))
      (fun _ => Except.ok ("t"))
      ⟨some 403, some (RequestConfig.mk false none)⟩).1 rfl).1

/-- C4 counterexample: a response with status 600 — which is neither 403 nor
5xx (600 is not in 500-599), so under the claim it should propagate with no
notification — nevertheless raises the Server Error toast, because the code
tests `status >= 500`, not membership in 5xx. -/
theorem C4_counterexample_status_600 :
    (responseErrorInterceptor (Storage.mk (some ("a")) (some ("r")))
        (fun _ => Except.ok ("t"))
        ⟨some 600, some (RequestConfig.mk false none)⟩).toasts
      = [Toast.serverError] ∧ ¬ (600 ≤ 599) := by
  exact ⟨rfl, by omega⟩

/-- C9: on the successful refresh-and-replay path, the only storage entry
written is the access token: the resulting storage is exactly the original
with `access_token` overwritten by the fresh token, and in particular the
stored refresh token is unchanged. -/
theorem C9_refresh_keeps_refresh_token
    (storage : Storage) (refreshCall : String → Except Unit String)
    (c : RequestConfig) (rt newTok : String)
    (hretry : c._retry = false)
    (hrt : storage.refresh_token = some rt) (hne : rt ≠ "")
    (hok : refreshCall rt = Except.ok newTok) :
    (responseErrorInterceptor storage refreshCall ⟨some 401, some c⟩).storage.refresh_token
      = storage.refresh_token ∧
    (responseErrorInterceptor storage refreshCall ⟨some 401, some c⟩).storage
      = { storage with access_token := some newTok } := by
  simp [responseErrorInterceptor, hretry, hrt, hne, hok]

/-- C9 witness: the concrete refresh token "rt" survives a successful
refresh. -/
theorem C9_refresh_keeps_refresh_token_witness :
    (responseErrorInterceptor (Storage.mk (some ("old")) (some ("rt")))
        (fun _ => Except.ok ("new"))
        ⟨some 401, some (RequestConfig.mk false none)⟩).storage.refresh_token
      = (Storage.mk (some ("old")) (some ("rt"))).refresh_token :=
  (C9_refresh_keeps_refresh_token (Storage.mk (some ("old")) (some ("rt")))
    (fun _ => Except.ok ("new")) (RequestConfig.mk false none) ("rt") ("new")
    rfl rfl (by decide) rfl).1

/-- C10: a fresh 401 with no refresh token stored makes no refresh call,
leaves storage untouched (the access token is not cleared), performs no
redirect, and rejects the original error to the caller with the request
marked retried. -/
theorem C10_401_without_refresh_token
    (storage : Storage) (refreshCall : String → Except Unit String)
    (c : RequestConfig)
    (hretry : c._retry = false) (hrt : storage.refresh_token = none) :
    responseErrorInterceptor storage refreshCall ⟨some 401, some c⟩
      = { storage := storage, toasts := [], redirect := none,
          refreshCalled := false, finalConfig := some { c with _retry := true },
          result := InterceptorResult.rejectError } := by
  simp [responseErrorInterceptor, hretry, hrt, rejectWithToasts, errorToasts]

/-- C10 witness: concrete fresh 401 with an access token but no refresh
token. -/
theorem C10_401_without_refresh_token_witness :
    responseErrorInterceptor (Storage.mk (some ("a")) none)
        (fun _ => Except.ok ("t")) ⟨some 401, some (RequestConfig.mk false none)⟩
      = { storage := Storage.mk (some ("a")) none, toasts := [], redirect := none,
          refreshCalled := false,
          finalConfig := some (RequestConfig.mk true none),
          result := InterceptorResult.rejectError } :=
  C10_401_without_refresh_token (Storage.mk (some ("a")) none)
    (fun _ => Except.ok ("t")) (RequestConfig.mk false none) rfl rfl

end OtakuForum
